import Mathlib

/-!
Shallow embedding of the `nba-cli` repository (src/nba_cli/{config,api,calendar}.py)
and verification of its specification claims.

Python dictionaries are embedded as association lists preserving insertion
order; `Optional[T]` becomes `Option T`; functions that may raise become
`Except`/`Option`-valued; the process clock (`datetime.now()`) and the remote
upstream source become explicit function parameters.  Logging and file I/O are
not modelled (exporting a calendar is treated as always succeeding); what the
code would write or return is modelled by the pure values it computes.
String operations (case folding, splitting, substring tests) are defined over
`List Char` so that every definition evaluates inside the kernel.
-/

/-! ## String primitives (models of the Python string operations used) -/

/-- `pat` is an initial run of `l` (helper for Python's `in` and `split`). -/
def leadsWith : List Char → List Char → Bool
  | [], _ => true
  | _ :: _, [] => false
  | a :: as, b :: bs => a == b && leadsWith as bs

/-- Contiguous-occurrence test over `List Char`. -/
def occursIn (pat : List Char) : List Char → Bool
  | [] => leadsWith pat []
  | b :: bs => leadsWith pat (b :: bs) || occursIn pat bs

/-- Python's `pat in hay` on strings: `pat` occurs contiguously in `hay`. -/
def hasSubstr (hay pat : String) : Bool :=
  occursIn pat.toList hay.toList

/-- Fuel-driven worker for `splitOnChars`; the fuel starts at the input
length, which bounds the number of steps. -/
def splitOnGo (sep : List Char) : Nat → List Char → List Char → List (List Char)
  | _, [], acc => [acc.reverse]
  | 0, l, acc => [acc.reverse ++ l]
  | fuel + 1, c :: rest, acc =>
    if leadsWith sep (c :: rest) then
      acc.reverse :: splitOnGo sep fuel (rest.drop (sep.length - 1)) []
    else
      splitOnGo sep fuel rest (c :: acc)

/-- Python's `s.split(sep)` for a nonempty separator: left-to-right,
non-overlapping. -/
def splitOnChars (sep l : List Char) : List (List Char) :=
  splitOnGo sep l.length l []

/-- Python `s.split(sep)` returning strings. -/
def pySplit (s sep : String) : List String :=
  (splitOnChars sep.toList s.toList).map (fun l => String.mk l)

/-- Python `s.upper()` (ASCII case folding, as used by the code). -/
def strUpper (s : String) : String :=
  String.mk (s.toList.map Char.toUpper)

/-- Python `s.lower()` (ASCII case folding, as used by the code). -/
def strLower (s : String) : String :=
  String.mk (s.toList.map Char.toLower)

/-- Python `s.capitalize()`: first character uppercased, the rest lowercased. -/
def pyCapitalize (s : String) : String :=
  match s.toList with
  | [] => ""
  | c :: rest => String.mk (c.toUpper :: rest.map Char.toLower)

/-- Decimal digit-string value (helper for the `strptime` model). -/
def digitsToNat (l : List Char) : Nat :=
  l.foldl (fun acc c => acc * 10 + (c.toNat - 48)) 0

def allDigits (s : String) : Bool :=
  s.toList.all Char.isDigit

/-! ## Team directory (config.py) -/

/-- One value of the `NBA_TEAMS` dictionary in config.py: display name,
full name, conference, division and numeric id. -/
structure TeamInfo where
  name : String
  full_name : String
  conference : String
  division : String
  id : Nat
deriving DecidableEq, Repr

/-- The `NBA_TEAMS` dictionary from config.py, as an association list in the
source's insertion order (Python dicts iterate in insertion order). -/
def NBA_TEAMS : List (String × TeamInfo) := [
  ("BOS", ⟨"Boston Celtics", "Boston Celtics", "East", "Atlantic", 1610612738⟩),
  ("BKN", ⟨"Brooklyn Nets", "Brooklyn Nets", "East", "Atlantic", 1610612751⟩),
  ("NYK", ⟨"New York Knicks", "New York Knicks", "East", "Atlantic", 1610612752⟩),
  ("PHI", ⟨"Philadelphia 76ers", "Philadelphia 76ers", "East", "Atlantic", 1610612755⟩),
  ("TOR", ⟨"Toronto Raptors", "Toronto Raptors", "East", "Atlantic", 1610612761⟩),
  ("CHI", ⟨"Chicago Bulls", "Chicago Bulls", "East", "Central", 1610612741⟩),
  ("CLE", ⟨"Cleveland Cavaliers", "Cleveland Cavaliers", "East", "Central", 1610612739⟩),
  ("DET", ⟨"Detroit Pistons", "Detroit Pistons", "East", "Central", 1610612765⟩),
  ("IND", ⟨"Indiana Pacers", "Indiana Pacers", "East", "Central", 1610612754⟩),
  ("MIL", ⟨"Milwaukee Bucks", "Milwaukee Bucks", "East", "Central", 1610612749⟩),
  ("ATL", ⟨"Atlanta Hawks", "Atlanta Hawks", "East", "Southeast", 1610612737⟩),
  ("CHA", ⟨"Charlotte Hornets", "Charlotte Hornets", "East", "Southeast", 1610612766⟩),
  ("MIA", ⟨"Miami Heat", "Miami Heat", "East", "Southeast", 1610612748⟩),
  ("ORL", ⟨"Orlando Magic", "Orlando Magic", "East", "Southeast", 1610612753⟩),
  ("WAS", ⟨"Washington Wizards", "Washington Wizards", "East", "Southeast", 1610612764⟩),
  ("DEN", ⟨"Denver Nuggets", "Denver Nuggets", "West", "Northwest", 1610612743⟩),
  ("MIN", ⟨"Minnesota Timberwolves", "Minnesota Timberwolves", "West", "Northwest", 1610612750⟩),
  ("OKC", ⟨"Oklahoma City Thunder", "Oklahoma City Thunder", "West", "Northwest", 1610612760⟩),
  ("POR", ⟨"Portland Trail Blazers", "Portland Trail Blazers", "West", "Northwest", 1610612757⟩),
  ("UTA", ⟨"Utah Jazz", "Utah Jazz", "West", "Northwest", 1610612762⟩),
  ("GSW", ⟨"Golden State Warriors", "Golden State Warriors", "West", "Pacific", 1610612744⟩),
  ("LAC", ⟨"Los Angeles Clippers", "Los Angeles Clippers", "West", "Pacific", 1610612746⟩),
  ("LAL", ⟨"Los Angeles Lakers", "Los Angeles Lakers", "West", "Pacific", 1610612747⟩),
  ("PHX", ⟨"Phoenix Suns", "Phoenix Suns", "West", "Pacific", 1610612756⟩),
  ("SAC", ⟨"Sacramento Kings", "Sacramento Kings", "West", "Pacific", 1610612758⟩),
  ("DAL", ⟨"Dallas Mavericks", "Dallas Mavericks", "West", "Southwest", 1610612742⟩),
  ("HOU", ⟨"Houston Rockets", "Houston Rockets", "West", "Southwest", 1610612745⟩),
  ("MEM", ⟨"Memphis Grizzlies", "Memphis Grizzlies", "West", "Southwest", 1610612763⟩),
  ("NOP", ⟨"New Orleans Pelicans", "New Orleans Pelicans", "West", "Southwest", 1610612740⟩),
  ("SAS", ⟨"San Antonio Spurs", "San Antonio Spurs", "West", "Southwest", 1610612759⟩)]

/-- `get_team_by_abbrev` (config.py): `NBA_TEAMS.get(abbrev.upper())`. -/
def get_team_by_abbrev (ab : String) : Option TeamInfo :=
  (NBA_TEAMS.find? (fun p => p.1 == strUpper ab)).map (·.2)

/-- The loop of `get_team_by_name` (config.py), one table entry at a time. -/
def lookupByNameGo (nameLower : String) :
    List (String × TeamInfo) → Option (String × TeamInfo)
  | [] => none
  | (ab, info) :: rest =>
    if hasSubstr (strLower info.name) nameLower
        || hasSubstr (strLower info.full_name) nameLower
        || nameLower == strLower ab then
      some (ab, info)
    else lookupByNameGo nameLower rest

/-- `get_team_by_name` (config.py): iterate the table in order and return the
first entry whose display name or full name contains the lowercased query as a
substring, or whose abbreviation equals it (case-insensitively). -/
def get_team_by_name (name : String) : Option (String × TeamInfo) :=
  lookupByNameGo (strLower name) NBA_TEAMS

/-- `get_teams_by_conference` (config.py). -/
def get_teams_by_conference (conference : String) : List (String × TeamInfo) :=
  NBA_TEAMS.filter (fun p => p.2.conference == pyCapitalize conference)

/-- `get_teams_by_division` (config.py). -/
def get_teams_by_division (division : String) : List (String × TeamInfo) :=
  NBA_TEAMS.filter (fun p => p.2.division == pyCapitalize division)

/-! ## Dates

`datetime` values are embedded as calendar fields down to the minute (the
code never sets seconds). -/

structure DateTime where
  year : Nat
  month : Nat
  day : Nat
  hour : Nat
  minute : Nat
deriving DecidableEq, Repr

/-- Injective packing of a valid `DateTime` used as the comparison key for
Python's `datetime` ordering (fields are lexicographic; the packing is
monotone because day < 32, hour < 24, minute < 60 on every value the parser
produces). -/
def DateTime.key (d : DateTime) : Nat :=
  d.minute + 60 * (d.hour + 24 * (d.day + 32 * (d.month + 13 * d.year)))

def daysInMonth (year month : Nat) : Nat :=
  if month = 2 then
    if year % 4 = 0 && (year % 100 != 0 || year % 400 = 0) then 29 else 28
  else if month = 4 || month = 6 || month = 9 || month = 11 then 30
  else 31

/-- `datetime.strptime(s, "%Y-%m-%d")` from `_parse_game_row`: four-digit
year, one-or-two-digit month and day, ranges validated (month 1–12, day
within the month). Returns `none` where Python raises `ValueError`. -/
def strptimeYMD (s : String) : Option (Nat × Nat × Nat) :=
  match pySplit s "-" with
  | [y, m, d] =>
    if y.toList.length = 4 && allDigits y
        && 1 ≤ m.toList.length && m.toList.length ≤ 2 && allDigits m
        && 1 ≤ d.toList.length && d.toList.length ≤ 2 && allDigits d then
      let yn := digitsToNat y.toList
      let mn := digitsToNat m.toList
      let dn := digitsToNat d.toList
      if 1 ≤ mn && mn ≤ 12 && 1 ≤ dn && dn ≤ daysInMonth yn mn then
        some (yn, mn, dn)
      else none
    else none
  | _ => none

/-- `game_date + timedelta(hours=3)` from `create_game_event`, with day/month
rollover as in Python datetime arithmetic. -/
def DateTime.addHours3 (d : DateTime) : DateTime :=
  if d.hour + 3 < 24 then { d with hour := d.hour + 3 }
  else
    let h := d.hour + 3 - 24
    if d.day < daysInMonth d.year d.month then
      { d with day := d.day + 1, hour := h }
    else if d.month < 12 then
      { year := d.year, month := d.month + 1, day := 1, hour := h, minute := d.minute }
    else
      { year := d.year + 1, month := 1, day := 1, hour := h, minute := d.minute }

/-! ## Games and the schedule fetcher (api.py) -/

/-- The `Game` dataclass from api.py. -/
structure Game where
  game_id : String
  game_date : DateTime
  home_team_id : Nat
  home_team : String
  home_team_name : String
  away_team_id : Nat
  away_team : String
  away_team_name : String
  home_score : Option Int := none
  away_score : Option Int := none
  arena : Option String := none
  completed : Bool := false
  season : String := ""
  season_type : String := "Regular Season"
deriving DecidableEq, Repr

/-- `Game.matchup` property. -/
def Game.matchup (g : Game) : String :=
  g.away_team ++ " @ " ++ g.home_team

/-- `Game.involves_team` predicate. -/
def Game.involves_team (g : Game) (team_abbrev : String) : Bool :=
  g.home_team == strUpper team_abbrev || g.away_team == strUpper team_abbrev

/-- One raw row of the upstream `LeagueGameFinder` data frame, restricted to
the columns `_parse_game_row` reads.  `wl` is `row.get("WL")` (absent = `none`),
`pts` is `row.get("PTS")` (absent = `none`; the numeric conversion `int(pts)`
is folded into the `Option Int` value), `season_type_col` is the optional
`SEASON_TYPE` column. -/
structure RawRow where
  game_id : String
  matchup : String
  team_abbreviation : String
  team_id : Nat
  game_date : String
  wl : Option String := none
  pts : Option Int := none
  season_type_col : Option String := none
deriving DecidableEq, Repr

/-- The matchup-splitting step of `_parse_game_row`, returning
`(away_abbrev, home_abbrev)`: a `" vs. "` separator means the row's team is
home (`home = parts[0]`, `away = parts[1]`); otherwise a `" @ "` separator
means it is away (`away = parts[0]`, `home = parts[1]`); otherwise the row is
unparseable. -/
def matchupSides (matchup : String) : Option (String × String) :=
  if hasSubstr matchup " vs. " then
    let parts := pySplit matchup " vs. "
    some (parts.getD 1 "", parts.getD 0 "")
  else if hasSubstr matchup " @ " then
    let parts := pySplit matchup " @ "
    some (parts.getD 0 "", parts.getD 1 "")
  else none

/-- `NBAClient._parse_game_row` (api.py): normalize one raw row into a `Game`,
or `none` where the Python code returns `None` (unknown matchup format,
unknown team abbreviation, unparseable date). -/
def parse_game_row (row : RawRow) (season : String) : Option Game :=
  match matchupSides row.matchup with
  | none => none
  | some (away_abbrev, home_abbrev) =>
    match get_team_by_abbrev home_abbrev with
    | none => none
    | some home_info =>
      match get_team_by_abbrev away_abbrev with
      | none => none
      | some away_info =>
        match strptimeYMD row.game_date with
        | none => none
        | some (y, m, d) =>
          let game_date : DateTime := ⟨y, m, d, 19, 30⟩
          let completed := row.wl matches some _ && row.wl != some ""
          let scores : Option Int × Option Int :=
            if completed then
              match row.pts with
              | some pts =>
                if row.team_abbreviation == home_abbrev then (some pts, none)
                else (none, some pts)
              | none => (none, none)
            else (none, none)
          some {
            game_id := row.game_id
            game_date := game_date
            home_team_id := home_info.id
            home_team := home_abbrev
            home_team_name := home_info.name
            away_team_id := away_info.id
            away_team := away_abbrev
            away_team_name := away_info.name
            home_score := scores.1
            away_score := scores.2
            completed := completed
            season := season
            season_type := row.season_type_col.getD "Regular Season" }

/-- Comparison by game date (Python compares `datetime` values; on the
parser's output this is the lexicographic field order, packed into `key`). -/
def dateLe (a b : Game) : Prop :=
  a.game_date.key ≤ b.game_date.key

instance : DecidableRel dateLe := fun _ _ => Nat.decLe _ _

instance : IsTotal Game dateLe := ⟨fun _ _ => Nat.le_total _ _⟩

instance : IsTrans Game dateLe := ⟨fun _ _ _ => Nat.le_trans⟩

/-- `games.sort(key=lambda g: g.game_date)`: Python's stable sort by game
date, modelled by stable insertion sort on the date key. -/
def sortByDate (games : List Game) : List Game :=
  games.insertionSort dateLe

/-- The shared per-row loop of `get_season_games` (api.py): skip rows whose
`GAME_ID` was already seen, record each new id as seen, parse the row, and
append the parsed game when parsing succeeds.  The seen set is threaded as a
list used only through membership. -/
def rowsLoop (season : String) :
    List RawRow → List String × List Game → List String × List Game
  | [], st => st
  | r :: rs, (seen, games) =>
    if r.game_id ∈ seen then rowsLoop season rs (seen, games)
    else
      match parse_game_row r season with
      | some g => rowsLoop season rs (r.game_id :: seen, games ++ [g])
      | none => rowsLoop season rs (r.game_id :: seen, games)

/-- Python truthiness of the `team_ids: Optional[list[int]]` argument:
`None` and the empty list are both falsy. -/
def teamIdsTruthy : Option (List Nat) → Bool
  | none => false
  | some l => !l.isEmpty

/-- `NBAClient.get_season_games` (api.py).  The upstream source is passed in
as `fetchTeam` (one `LeagueGameFinder` call per team id and season type) and
`fetchBulk` (one unfiltered call per season type); the season argument of
those calls is fixed by the enclosing fetch.  When `team_ids` is truthy the
per-team loop threads one shared seen-id set across all teams; otherwise one
bulk query is processed.  The merged result is sorted ascending by game
date. -/
def get_season_games (fetchTeam : Nat → String → List RawRow)
    (fetchBulk : String → List RawRow) (season : String)
    (team_ids : Option (List Nat)) (season_type : String) : List Game :=
  let st :=
    if teamIdsTruthy team_ids then
      (team_ids.getD []).foldl
        (fun st team_id => rowsLoop season (fetchTeam team_id season_type) st)
        ([], [])
    else
      rowsLoop season (fetchBulk season_type) ([], [])
  sortByDate st.2

/-- The season-type list assembled by `get_full_season_schedule`:
`["Regular Season"]`, with `"Pre Season"` inserted in front and
`"Playoffs"` appended according to the flags. -/
def seasonTypesList (include_preseason include_playoffs : Bool) : List String :=
  (if include_preseason then ["Pre Season"] else []) ++ ["Regular Season"]
    ++ (if include_playoffs then ["Playoffs"] else [])

/-- The `game.season_type = season_type` assignment in
`get_full_season_schedule`: the one place a constructed `Game` is changed. -/
def setSeasonType (g : Game) (st : String) : Game :=
  { g with season_type := st }

/-- The inner loop of `get_full_season_schedule`: merge one sub-query's
games into the accumulated `(seen ids, games)` state, skipping already-seen
ids and stamping each kept game with the sub-query's season type. -/
def mergeLoop (season_type : String) :
    List Game → List String × List Game → List String × List Game
  | [], st => st
  | g :: gs, (seen, acc) =>
    if g.game_id ∈ seen then mergeLoop season_type gs (seen, acc)
    else mergeLoop season_type gs (g.game_id :: seen, acc ++ [setSeasonType g season_type])

/-- `NBAClient.get_full_season_schedule` (api.py): one `get_season_games`
call per requested season type, merged under a shared seen-id set; each kept
game has its `season_type` overwritten with the season type of the sub-query
that produced it; the merged list is sorted ascending by game date. -/
def get_full_season_schedule (fetchTeam : Nat → String → List RawRow)
    (fetchBulk : String → List RawRow) (season : String)
    (team_ids : Option (List Nat))
    (include_preseason include_playoffs : Bool) : List Game :=
  let st := (seasonTypesList include_preseason include_playoffs).foldl
    (fun st season_type =>
      mergeLoop season_type
        (get_season_games fetchTeam fetchBulk season team_ids season_type) st)
    (([] : List String), ([] : List Game))
  sortByDate st.2

/-! ## MD5 (model of `hashlib.md5(...).hexdigest()` used for event uids)

Words are `Nat` values reduced modulo `2 ^ 32` explicitly. -/

/-- UTF-8 encoding of one character (model of Python `str.encode()`). -/
def utf8EncodeChar (c : Char) : List Nat :=
  let n := c.toNat
  if n < 0x80 then [n]
  else if n < 0x800 then
    [0xC0 ||| (n >>> 6), 0x80 ||| (n &&& 0x3F)]
  else if n < 0x10000 then
    [0xE0 ||| (n >>> 12), 0x80 ||| ((n >>> 6) &&& 0x3F), 0x80 ||| (n &&& 0x3F)]
  else
    [0xF0 ||| (n >>> 18), 0x80 ||| ((n >>> 12) &&& 0x3F),
     0x80 ||| ((n >>> 6) &&& 0x3F), 0x80 ||| (n &&& 0x3F)]

/-- UTF-8 encoding of a string as a byte list. -/
def utf8Encode (s : String) : List Nat :=
  s.toList.flatMap utf8EncodeChar

/-- The 64 MD5 sine-derived round constants. -/
def md5K : List Nat := [
  0xd76aa478, 0xe8c7b756, 0x242070db, 0xc1bdceee,
  0xf57c0faf, 0x4787c62a, 0xa8304613, 0xfd469501,
  0x698098d8, 0x8b44f7af, 0xffff5bb1, 0x895cd7be,
  0x6b901122, 0xfd987193, 0xa679438e, 0x49b40821,
  0xf61e2562, 0xc040b340, 0x265e5a51, 0xe9b6c7aa,
  0xd62f105d, 0x02441453, 0xd8a1e681, 0xe7d3fbc8,
  0x21e1cde6, 0xc33707d6, 0xf4d50d87, 0x455a14ed,
  0xa9e3e905, 0xfcefa3f8, 0x676f02d9, 0x8d2a4c8a,
  0xfffa3942, 0x8771f681, 0x6d9d6122, 0xfde5380c,
  0xa4beea44, 0x4bdecfa9, 0xf6bb4b60, 0xbebfbc70,
  0x289b7ec6, 0xeaa127fa, 0xd4ef3085, 0x04881d05,
  0xd9d4d039, 0xe6db99e5, 0x1fa27cf8, 0xc4ac5665,
  0xf4292244, 0x432aff97, 0xab9423a7, 0xfc93a039,
  0x655b59c3, 0x8f0ccc92, 0xffeff47d, 0x85845dd1,
  0x6fa87e4f, 0xfe2ce6e0, 0xa3014314, 0x4e0811a1,
  0xf7537e82, 0xbd3af235, 0x2ad7d2bb, 0xeb86d391]

/-- The 64 MD5 per-round left-rotation amounts. -/
def md5S : List Nat := [
  7, 12, 17, 22, 7, 12, 17, 22, 7, 12, 17, 22, 7, 12, 17, 22,
  5, 9, 14, 20, 5, 9, 14, 20, 5, 9, 14, 20, 5, 9, 14, 20,
  4, 11, 16, 23, 4, 11, 16, 23, 4, 11, 16, 23, 4, 11, 16, 23,
  6, 10, 15, 21, 6, 10, 15, 21, 6, 10, 15, 21, 6, 10, 15, 21]

/-- 32-bit left rotation. -/
def rotl32 (x n : Nat) : Nat :=
  (((x <<< n) ||| (x >>> (32 - n)))) % 2 ^ 32

/-- MD5 padding: append `0x80`, zero-fill to 56 mod 64, append the original
bit length as 8 little-endian bytes. -/
def md5Pad (msg : List Nat) : List Nat :=
  let padLen := (56 + 64 - (msg.length + 1) % 64) % 64
  let bitLen := (8 * msg.length) % 2 ^ 64
  msg ++ [0x80] ++ List.replicate padLen 0
    ++ (List.range 8).map (fun i => (bitLen >>> (8 * i)) % 256)

/-- The sixteen little-endian 32-bit words of one 64-byte chunk. -/
def md5Words (chunk : List Nat) : List Nat :=
  (List.range 16).map (fun j =>
    chunk.getD (4 * j) 0 + 256 * chunk.getD (4 * j + 1) 0
      + 65536 * chunk.getD (4 * j + 2) 0 + 16777216 * chunk.getD (4 * j + 3) 0)

/-- One of the 64 MD5 rounds applied to the working state `(A, B, C, D)`. -/
def md5Round (M : List Nat) (st : Nat × Nat × Nat × Nat) (i : Nat) :
    Nat × Nat × Nat × Nat :=
  let (A, B, C, D) := st
  let (F, g) :=
    if i < 16 then ((B &&& C) ||| ((B ^^^ 0xffffffff) &&& D), i)
    else if i < 32 then ((D &&& B) ||| ((D ^^^ 0xffffffff) &&& C), (5 * i + 1) % 16)
    else if i < 48 then (B ^^^ C ^^^ D, (3 * i + 5) % 16)
    else (C ^^^ (B ||| (D ^^^ 0xffffffff)), (7 * i) % 16)
  let F2 := (F + A + md5K.getD i 0 + M.getD g 0) % 2 ^ 32
  (D, (B + rotl32 F2 (md5S.getD i 0)) % 2 ^ 32, B, C)

/-- Process one 64-byte chunk into the running MD5 state. -/
def md5Chunk (st : Nat × Nat × Nat × Nat) (chunk : List Nat) :
    Nat × Nat × Nat × Nat :=
  let (a0, b0, c0, d0) := st
  let M := md5Words chunk
  let (A, B, C, D) := (List.range 64).foldl (md5Round M) (a0, b0, c0, d0)
  ((a0 + A) % 2 ^ 32, (b0 + B) % 2 ^ 32, (c0 + C) % 2 ^ 32, (d0 + D) % 2 ^ 32)

/-- Split a byte list into 64-byte chunks (the padded length is a multiple
of 64, so the fuel `l.length` suffices). -/
def chunks64 : Nat → List Nat → List (List Nat)
  | _, [] => []
  | 0, l => [l]
  | fuel + 1, l => l.take 64 :: chunks64 fuel (l.drop 64)

/-- Lowercase hex rendering of one byte. -/
def byteToHex (b : Nat) : List Char :=
  let digits := "0123456789abcdef".toList
  [digits.getD (b / 16 % 16) '0', digits.getD (b % 16) '0']

/-- `hashlib.md5(bytes).hexdigest()`: digest of a byte list as a lowercase
hex string. -/
def md5Hex (msg : List Nat) : String :=
  let padded := md5Pad msg
  let (a, b, c, d) :=
    (chunks64 padded.length padded).foldl md5Chunk
      (0x67452301, 0xefcdab89, 0x98badcfe, 0x10325476)
  let bytesLE := fun (w : Nat) => (List.range 4).map (fun i => (w >>> (8 * i)) % 256)
  String.mk (((bytesLE a ++ bytesLE b ++ bytesLE c ++ bytesLE d).map byteToHex).flatten)

/-! ## Calendar synthesis (calendar.py) -/

/-- An `icalendar` alarm sub-component as built by `create_game_event`:
`trigger_minutes` is the signed minute offset of `timedelta(minutes=...)`. -/
structure AlarmComp where
  action : String
  description : String
  trigger_minutes : Int
deriving DecidableEq, Repr

/-- An `icalendar` event as built by `create_game_event`. -/
structure EventComp where
  uid : String
  summary : String
  dtstart : DateTime
  dtend : DateTime
  location : Option String
  description : String
  categories : List String
  status : String
  alarm : Option AlarmComp
  dtstamp : DateTime
  created : DateTime
deriving DecidableEq, Repr

/-- An `icalendar` calendar as built by the generators in calendar.py. -/
structure CalendarDoc where
  prodid : String
  version : String
  calscale : String
  method : String
  calname : String
  timezone : String
  events : List EventComp
deriving DecidableEq, Repr

/-- The deterministic event identifier of `create_game_event`:
`md5("nba-{season}-{game_id}").hexdigest() + "@nba-cli"`. -/
def eventUid (season game_id : String) : String :=
  md5Hex (utf8Encode ("nba-" ++ season ++ "-" ++ game_id)) ++ "@nba-cli"

/-- `create_game_event` (calendar.py).  `now` stands for `datetime.now()`. -/
def create_game_event (now : DateTime) (game : Game)
    (reminder_minutes : Int) : EventComp :=
  let summary :=
    match game.completed, game.home_score, game.away_score with
    | true, some hs, some as_ =>
      game.away_team ++ " " ++ toString as_ ++ " @ " ++ game.home_team ++ " " ++ toString hs
    | _, _, _ => game.away_team ++ " @ " ++ game.home_team
  let location :=
    match game.arena with
    | some a => if a == "" then none else some a
    | none => none
  let description_parts :=
    [game.away_team_name ++ " @ " ++ game.home_team_name,
     "Season: " ++ game.season]
    ++ (if game.season_type != "Regular Season" then ["Type: " ++ game.season_type] else [])
    ++ (match game.completed, game.home_score, game.away_score with
        | true, some hs, some as_ =>
          ["Final: " ++ game.away_team ++ " " ++ toString as_ ++ " - "
            ++ toString hs ++ " " ++ game.home_team]
        | _, _, _ => [])
  let alarm :=
    if !game.completed && reminder_minutes > 0 then
      some { action := "DISPLAY",
             description := "NBA: " ++ game.matchup ++ " starting soon",
             trigger_minutes := -reminder_minutes }
    else none
  { uid := eventUid game.season game.game_id
    summary := summary
    dtstart := game.game_date
    dtend := game.game_date.addHours3
    location := location
    description := String.intercalate "\n" description_parts
    categories := ["NBA", "Basketball"]
      ++ (if game.season_type == "Playoffs" then ["Playoffs"] else [])
    status := if game.completed then "CONFIRMED" else "TENTATIVE"
    alarm := alarm
    dtstamp := now
    created := now }

/-- Python's `calendar_name or default`: `None` and the empty string both
fall back to the default. -/
def calNameOr (calendar_name : Option String) (dflt : String) : String :=
  match calendar_name with
  | some s => if s == "" then dflt else s
  | none => dflt

/-- `generate_team_calendar` (calendar.py): raises `ValueError` (modelled as
`Except.error`) when the abbreviation is unknown, otherwise one event per
game involving the team. -/
def generate_team_calendar (now : DateTime) (games : List Game)
    (team_abbrev : String) (calendar_name : Option String)
    (reminder_minutes : Int) : Except String CalendarDoc :=
  match get_team_by_abbrev team_abbrev with
  | none => Except.error ("Unknown team: " ++ team_abbrev)
  | some team_info =>
    let team_games := games.filter (fun g => g.involves_team team_abbrev)
    Except.ok {
      prodid := "-//NBA CLI//nba-cli//EN"
      version := "2.0"
      calscale := "GREGORIAN"
      method := "PUBLISH"
      calname := calNameOr calendar_name ("NBA - " ++ team_info.name)
      timezone := "America/New_York"
      events := team_games.map (fun g => create_game_event now g reminder_minutes) }

/-- The filtering/deduplicating loop shared by `generate_conference_calendar`
and `generate_division_calendar`: rows whose id was already seen are skipped;
a game matching `p` is kept and only then is its id recorded as seen. -/
def filterDedup (p : Game → Bool) : List Game → List String → List Game
  | [], _ => []
  | g :: gs, seen =>
    if g.game_id ∈ seen then filterDedup p gs seen
    else if p g then g :: filterDedup p gs (g.game_id :: seen)
    else filterDedup p gs seen

/-- `generate_conference_calendar` (calendar.py): keeps games where either
side's abbreviation belongs to the (capitalized) conference, deduplicated by
game id. -/
def generate_conference_calendar (now : DateTime) (games : List Game)
    (conference : String) (calendar_name : Option String)
    (reminder_minutes : Int) : CalendarDoc :=
  let conf := pyCapitalize conference
  let conf_teams := (NBA_TEAMS.filter (fun p => p.2.conference == conf)).map (·.1)
  let conf_games := filterDedup
    (fun g => g.home_team ∈ conf_teams || g.away_team ∈ conf_teams) games []
  { prodid := "-//NBA CLI//nba-cli//EN"
    version := "2.0"
    calscale := "GREGORIAN"
    method := "PUBLISH"
    calname := calNameOr calendar_name ("NBA - " ++ conf ++ "ern Conference")
    timezone := "America/New_York"
    events := conf_games.map (fun g => create_game_event now g reminder_minutes) }

/-- `generate_division_calendar` (calendar.py): same pattern at division
grain. -/
def generate_division_calendar (now : DateTime) (games : List Game)
    (division : String) (calendar_name : Option String)
    (reminder_minutes : Int) : CalendarDoc :=
  let div := pyCapitalize division
  let div_teams := (NBA_TEAMS.filter (fun p => p.2.division == div)).map (·.1)
  let div_games := filterDedup
    (fun g => g.home_team ∈ div_teams || g.away_team ∈ div_teams) games []
  { prodid := "-//NBA CLI//nba-cli//EN"
    version := "2.0"
    calscale := "GREGORIAN"
    method := "PUBLISH"
    calname := calNameOr calendar_name ("NBA - " ++ div ++ " Division")
    timezone := "America/New_York"
    events := div_games.map (fun g => create_game_event now g reminder_minutes) }

/-- The event list of the combined calendar built inline in
`CalendarManager.generate_all`: every distinct game id exactly once (first
occurrence kept). -/
def combinedEvents (now : DateTime) (games : List Game)
    (reminder_minutes : Int) : List EventComp :=
  (filterDedup (fun _ => true) games []).map
    (fun g => create_game_event now g reminder_minutes)

/-- The combined calendar of `CalendarManager.generate_all`. -/
def combinedCalendar (now : DateTime) (games : List Game)
    (reminder_minutes : Int) : CalendarDoc :=
  { prodid := "-//NBA CLI//nba-cli//EN"
    version := "2.0"
    calscale := "GREGORIAN"
    method := "PUBLISH"
    calname := "NBA Schedule"
    timezone := "America/New_York"
    events := combinedEvents now games reminder_minutes }

/-- `CalendarManager.generate_all` (calendar.py): builds and exports one
calendar per tracked team/conference/division plus the combined calendar, and
returns the list of written file paths.  A team whose generation raises
(unknown abbreviation) is skipped; conference and division generation cannot
raise; export I/O is modelled as always succeeding. -/
def generate_all (now : DateTime) (output_dir : String) (games : List Game)
    (tracked_teams tracked_conferences tracked_divisions : List String)
    (reminder_minutes : Int) : List String :=
  let generated : List String := []
  let generated := tracked_teams.foldl
    (fun acc ab =>
      match generate_team_calendar now games ab none reminder_minutes with
      | Except.ok _ => acc ++ [output_dir ++ "/nba_" ++ strLower ab ++ ".ics"]
      | Except.error _ => acc)
    generated
  let generated := tracked_conferences.foldl
    (fun acc conf =>
      let _cal := generate_conference_calendar now games conf none reminder_minutes
      acc ++ [output_dir ++ "/nba_" ++ strLower conf ++ ".ics"])
    generated
  let generated := tracked_divisions.foldl
    (fun acc div =>
      let _cal := generate_division_calendar now games div none reminder_minutes
      acc ++ [output_dir ++ "/nba_" ++ strLower div ++ ".ics"])
    generated
  if !tracked_teams.isEmpty || !tracked_conferences.isEmpty
      || !tracked_divisions.isEmpty then
    let _cal := combinedCalendar now games reminder_minutes
    generated ++ [output_dir ++ "/nba_schedule.ics"]
  else generated

/-! ## Spec-side definition used for the name-lookup refinement claim -/

/-- Modelled from the spec's words for `lookupByName` ("case-insensitive
substring match against display name, full name, and abbreviation, returning
the first match in table iteration order"): unlike the code, the abbreviation
is also matched by substring. -/
def lookupByNameSpec (name : String) : Option (String × TeamInfo) :=
  NBA_TEAMS.find? (fun p =>
    hasSubstr (strLower p.2.name) (strLower name)
      || hasSubstr (strLower p.2.full_name) (strLower name)
      || hasSubstr (strLower p.1) (strLower name))

/-! ## Concrete fixtures used by witnesses and counterexamples -/

/-- A raw row of the completed game BOS 110 – NYK 102, as seen from the home
team's game log: the row carries only the home side's points; the away side's
102 points appear in no field of this record. -/
def rowBOSHome : RawRow :=
  { game_id := "0022400001", matchup := "BOS vs. NYK",
    team_abbreviation := "BOS", team_id := 1610612738,
    game_date := "2024-12-25", wl := some "W", pts := some 110 }

/-- The same game seen from the away team's game log. -/
def rowNYKAway : RawRow :=
  { game_id := "0022400001", matchup := "NYK @ BOS",
    team_abbreviation := "NYK", team_id := 1610612752,
    game_date := "2024-12-25", wl := some "L", pts := some 102 }

/-- An upcoming (not completed) row with no `SEASON_TYPE` column. -/
def rowUpcoming : RawRow :=
  { game_id := "0022400001", matchup := "BOS vs. NYK",
    team_abbreviation := "BOS", team_id := 1610612738,
    game_date := "2024-12-25" }

/-- A fixed clock value standing for `datetime.now()`. -/
def now0 : DateTime := ⟨2024, 1, 1, 0, 0⟩

/-- The `Game` produced by parsing `rowBOSHome`. -/
def gameBOSHome : Game :=
  { game_id := "0022400001", game_date := ⟨2024, 12, 25, 19, 30⟩,
    home_team_id := 1610612738, home_team := "BOS", home_team_name := "Boston Celtics",
    away_team_id := 1610612752, away_team := "NYK", away_team_name := "New York Knicks",
    home_score := some 110, away_score := none, completed := true,
    season := "2024-25", season_type := "Regular Season" }

/-- An upcoming game as a constructed `Game` value. -/
def gameUpcoming : Game :=
  { game_id := "0022400001", game_date := ⟨2024, 12, 25, 19, 30⟩,
    home_team_id := 1610612738, home_team := "BOS", home_team_name := "Boston Celtics",
    away_team_id := 1610612752, away_team := "NYK", away_team_name := "New York Knicks",
    season := "2024-25" }

/-- The same game completed with both scores present. -/
def gameDone : Game :=
  { gameUpcoming with completed := true, home_score := some 110, away_score := some 102 }

/-- A row with the away-perspective separator: BOS is the away side. -/
def rowBOSAway : RawRow :=
  { rowBOSHome with matchup := "BOS @ NYK" }

/-- The `Game` produced by parsing `rowBOSAway` (BOS away at NYK; the row's
team BOS is away, so its 110 points land on the away score). -/
def gameBOSAway : Game :=
  { game_id := "0022400001", game_date := ⟨2024, 12, 25, 19, 30⟩,
    home_team_id := 1610612752, home_team := "NYK", home_team_name := "New York Knicks",
    away_team_id := 1610612738, away_team := "BOS", away_team_name := "Boston Celtics",
    home_score := none, away_score := some 110, completed := true,
    season := "2024-25", season_type := "Regular Season" }

/-- A row whose matchup text contains neither separator token. -/
def rowBadSep : RawRow :=
  { rowBOSHome with matchup := "BOS at NYK" }

/-- A row whose matchup names an abbreviation unknown to the directory. -/
def rowUnkTeam : RawRow :=
  { rowBOSHome with matchup := "BOS vs. XYZ" }

/-- A per-team upstream source where BOS's and NYK's game logs share game
0022400001 (each from its own perspective). -/
def fetchShared : Nat → String → List RawRow := fun tid _ =>
  if tid = 1610612738 then [rowBOSHome]
  else if tid = 1610612752 then [rowNYKAway]
  else []

/-- A bulk upstream source that returns the upcoming row only for the
"Playoffs" season-type query. -/
def fetchPlayoffsOnly : String → List RawRow := fun st =>
  if st == "Playoffs" then [rowUpcoming] else []

/-- Duplicate-counting predicate: the game carries the given id. -/
def gameIdIs (id : String) (g : Game) : Bool :=
  g.game_id == id

/-- Invariant threaded through the fetch merge loops: every accumulated
game's id is in the seen set, and every id occurs at most once among the
accumulated games. -/
def FetchInv (st : List String × List Game) : Prop :=
  (∀ g ∈ st.2, g.game_id ∈ st.1)
    ∧ ∀ id, List.countP (gameIdIs id) st.2 ≤ 1

/-! ## Lemmas about the row parser -/

theorem parse_game_row_game_id {r : RawRow} {s : String} {g : Game}
    (h : parse_game_row r s = some g) : g.game_id = r.game_id := by
  unfold parse_game_row at h
  repeat' split at h
  all_goals (try exact Option.noConfusion h)
  all_goals (injection h with h; subst h)
  all_goals rfl

theorem parse_game_row_season_type {r : RawRow} {s : String} {g : Game}
    (h : parse_game_row r s = some g) :
    g.season_type = r.season_type_col.getD "Regular Season" := by
  unfold parse_game_row at h
  repeat' split at h
  all_goals (try exact Option.noConfusion h)
  all_goals (injection h with h; subst h)
  all_goals rfl

/-- Score shape of a parsed game: at least one score is always `None`; an
incomplete game has both `None`; an absent points field gives both `None`;
any present score value is exactly the row's own points value. -/
theorem parse_game_row_scores {r : RawRow} {s : String} {g : Game}
    (h : parse_game_row r s = some g) :
    (g.home_score = none ∨ g.away_score = none)
      ∧ (g.completed = false → g.home_score = none ∧ g.away_score = none)
      ∧ (r.pts = none → g.home_score = none ∧ g.away_score = none)
      ∧ (∀ p : Int, g.home_score = some p ∨ g.away_score = some p → r.pts = some p) := by
  unfold parse_game_row at h
  repeat' split at h
  all_goals (try exact Option.noConfusion h)
  all_goals (injection h with h; subst h)
  all_goals simp_all
  all_goals (repeat' split) <;> simp_all

/-! ## Claim C1 -/

/-- C1 counterexample: a raw record of the completed game BOS 110 – NYK 102
carries only its own team's points, so the parsed `Game` from the home-team
record has `homeScore = 110` but `awayScore = None` (not `102`), and the
parsed `Game` from the away-team record has `awayScore = 102` but
`homeScore = None`; no single record yields both scores as the claim
states. -/
theorem C1_counterexample :
    parse_game_row rowBOSHome "2024-25" = some gameBOSHome
      ∧ gameBOSHome.completed = true
      ∧ gameBOSHome.home_score = some 110
      ∧ ¬gameBOSHome.away_score = some 102
      ∧ (parse_game_row rowNYKAway "2024-25").map
          (fun g => (g.home_score, g.away_score)) = some (none, some 102) := by
  decide

/-- C1 (amended): a raw record carries a single points value for its own
team only, so a parsed `Game` never has both scores set: at least one score
is always `None`; an incomplete game yields both `None`; an absent points
field yields both `None` (never `0`); and any score that is present equals
the record's own points value. -/
theorem C1_scores_one_sided {r : RawRow} {s : String} {g : Game}
    (h : parse_game_row r s = some g) :
    (g.home_score = none ∨ g.away_score = none)
      ∧ (g.completed = false → g.home_score = none ∧ g.away_score = none)
      ∧ (r.pts = none → g.home_score = none ∧ g.away_score = none)
      ∧ (∀ p : Int, g.home_score = some p ∨ g.away_score = some p → r.pts = some p) :=
  parse_game_row_scores h

/-- C1 witness: the amended theorem applied to the concrete home-team record
of a completed game. -/
theorem C1_scores_one_sided_witness :
    gameBOSHome.home_score = none ∨ gameBOSHome.away_score = none :=
  (@C1_scores_one_sided rowBOSHome "2024-25" gameBOSHome (by decide)).1

/-! ## Claim C4 -/

/-- The uid written by `create_game_event` is `eventUid` of the game's season
and id. -/
theorem create_game_event_uid (now : DateTime) (g : Game) (m : Int) :
    (create_game_event now g m).uid = eventUid g.season g.game_id := rfl

/-- C4: the synthesized event identifier is a deterministic function of
season and gameId only: for any two games agreeing on `season` and `game_id`,
and any two clock values and reminder parameters (two runs), the identifiers
coincide; consequently re-synthesizing the combined calendar from the same
game sequence yields the identical identifier list. -/
theorem C4_uid_deterministic (now₁ now₂ : DateTime) (m₁ m₂ : Int)
    (g₁ g₂ : Game) (games : List Game)
    (hs : g₁.season = g₂.season) (hid : g₁.game_id = g₂.game_id) :
    (create_game_event now₁ g₁ m₁).uid = (create_game_event now₂ g₂ m₂).uid
      ∧ (combinedEvents now₁ games m₁).map (·.uid)
          = (combinedEvents now₂ games m₂).map (·.uid) := by
  constructor
  · simp only [create_game_event_uid, hs, hid]
  · simp only [combinedEvents, List.map_map]
    rfl

/-- C4 witness: two games sharing season and id but differing in every other
field, under different clocks and reminder settings, receive the same uid. -/
theorem C4_uid_deterministic_witness :
    (create_game_event now0 gameUpcoming 60).uid
      = (create_game_event ⟨2025, 6, 30, 12, 45⟩ gameBOSHome 0).uid :=
  (C4_uid_deterministic now0 ⟨2025, 6, 30, 12, 45⟩ 60 0 gameUpcoming gameBOSHome []
    rfl rfl).1

/-! ## Claim C8 -/

/-- C8: a reminder sub-event is attached iff the game is not completed and
the requested lead time is positive, and its trigger offset is minus the
lead time: completed games never get a reminder, non-positive lead time
yields none, and an upcoming game with positive lead time `m` gets a
display alarm with trigger `-m` minutes. -/
theorem C8_reminder_gating (now : DateTime) (g : Game) (m : Int) :
    (g.completed = true → (create_game_event now g m).alarm = none)
      ∧ (m ≤ 0 → (create_game_event now g m).alarm = none)
      ∧ (g.completed = false → 0 < m →
          (create_game_event now g m).alarm =
            some ⟨"DISPLAY", "NBA: " ++ g.matchup ++ " starting soon", -m⟩) := by
  refine ⟨fun hc => ?_, fun hm => ?_, fun hc hm => ?_⟩
  · simp [create_game_event, hc]
  · simp [create_game_event, not_lt.mpr hm]
  · simp [create_game_event, hc, hm]

/-- C8 witness: the three gating cases at concrete inputs — a completed game
with lead 60 gets no alarm, an upcoming game with lead 0 gets no alarm, and
an upcoming game with lead 60 gets an alarm firing 60 minutes before
start. -/
theorem C8_reminder_gating_witness :
    (create_game_event now0 gameDone 60).alarm = none
      ∧ (create_game_event now0 gameUpcoming 0).alarm = none
      ∧ (create_game_event now0 gameUpcoming 60).alarm =
          some ⟨"DISPLAY", "NBA: " ++ gameUpcoming.matchup ++ " starting soon", -60⟩ :=
  ⟨(C8_reminder_gating now0 gameDone 60).1 rfl,
   (C8_reminder_gating now0 gameUpcoming 0).2.1 (by decide),
   (C8_reminder_gating now0 gameUpcoming 60).2.2 rfl (by decide)⟩

/-! ## Claim C9 -/

/-- The name-lookup loop is `List.find?` of its matching predicate. -/
theorem lookupByNameGo_eq_find? (nl : String) (l : List (String × TeamInfo)) :
    lookupByNameGo nl l = l.find? (fun p =>
      hasSubstr (strLower p.2.name) nl || hasSubstr (strLower p.2.full_name) nl
        || nl == strLower p.1) := by
  induction l with
  | nil => rfl
  | cons hd tl ih =>
    obtain ⟨ab, info⟩ := hd
    simp only [lookupByNameGo, List.find?_cons]
    split <;> rename_i hcond
    · rw [hcond]
    · rw [Bool.not_eq_true] at hcond
      rw [hcond]
      exact ih

/-- C9 counterexample: the fragment "hx" is a case-insensitive substring of
the abbreviation "PHX", so the claimed semantics (substring match against the
abbreviation) would return the Suns, but `get_team_by_name` compares the
abbreviation by equality only and returns not-found. -/
theorem C9_counterexample :
    get_team_by_name "hx" = none
      ∧ lookupByNameSpec "hx" =
          some ("PHX", ⟨"Phoenix Suns", "Phoenix Suns", "West", "Pacific", 1610612756⟩) := by
  decide

/-- C9 (amended): name lookup is a case-insensitive match returning the first
matching team in table iteration order, where the display name and full name
are matched by substring but the abbreviation by equality; when no entry
matches, it returns the explicit not-found value `none` (never a fatal
failure). -/
theorem C9_name_lookup (name : String) :
    get_team_by_name name = NBA_TEAMS.find? (fun p =>
        hasSubstr (strLower p.2.name) (strLower name)
          || hasSubstr (strLower p.2.full_name) (strLower name)
          || strLower name == strLower p.1)
      ∧ ((∀ p ∈ NBA_TEAMS,
            (hasSubstr (strLower p.2.name) (strLower name)
              || hasSubstr (strLower p.2.full_name) (strLower name)
              || strLower name == strLower p.1) = false) →
          get_team_by_name name = none) := by
  refine ⟨lookupByNameGo_eq_find? _ _, fun hnone => ?_⟩
  rw [get_team_by_name, lookupByNameGo_eq_find?]
  rw [List.find?_eq_none]
  intro p hp
  simp [hnone p hp]

/-- C9 witness: the fragment "qq" matches no table entry, and lookup returns
`none`. -/
theorem C9_name_lookup_witness : get_team_by_name "qq" = none :=
  (C9_name_lookup "qq").2 (by decide)

/-! ## Claim C10 -/

/-- C10: calling `get_season_games` with an empty team-id list takes the same
unfiltered bulk path as calling it with no filter: the results are equal for
every upstream source, season and season type. -/
theorem C10_empty_filter_is_bulk (fetchTeam : Nat → String → List RawRow)
    (fetchBulk : String → List RawRow) (season season_type : String) :
    get_season_games fetchTeam fetchBulk season (some []) season_type
      = get_season_games fetchTeam fetchBulk season none season_type := rfl

theorem fetchInv_insert {seen : List String} {games : List Game} {gid : String}
    {g : Game} (h : FetchInv (seen, games)) (hid : g.game_id = gid)
    (hmem : gid ∉ seen) : FetchInv (gid :: seen, games ++ [g]) := by
  obtain ⟨h1, h2⟩ := h
  constructor
  · intro g' hg'
    rcases List.mem_append.1 hg' with hg' | hg'
    · exact List.mem_cons_of_mem _ (h1 g' hg')
    · rcases List.mem_singleton.1 hg' with rfl
      rw [hid]
      exact List.mem_cons_self _ _
  · intro id
    rw [List.countP_append]
    by_cases hEq : gameIdIs id g
    · have hz : List.countP (gameIdIs id) games = 0 := by
        rw [List.countP_eq_zero]
        intro a ha hpa
        have hseen : a.game_id ∈ seen := h1 a ha
        have hga : a.game_id = id := by simpa [gameIdIs] using hpa
        have hgg : g.game_id = id := by simpa [gameIdIs] using hEq
        exact hmem (by rw [← hid, hgg, ← hga]; exact hseen)
      simp [hz, List.countP_cons, hEq]
    · have hz : List.countP (gameIdIs id) [g] = 0 := by
        simp [List.countP_cons, hEq]
      rw [hz]
      simpa using h2 id

theorem fetchInv_grow_seen {seen : List String} {games : List Game}
    {gid : String} (h : FetchInv (seen, games)) : FetchInv (gid :: seen, games) :=
  ⟨fun g hg => List.mem_cons_of_mem _ (h.1 g hg), h.2⟩

theorem rowsLoop_inv (season : String) (rows : List RawRow)
    {st : List String × List Game} (h : FetchInv st) :
    FetchInv (rowsLoop season rows st) := by
  induction rows generalizing st with
  | nil => simpa [rowsLoop] using h
  | cons r rs ih =>
    obtain ⟨seen, games⟩ := st
    by_cases hmem : r.game_id ∈ seen
    · simp only [rowsLoop, if_pos hmem]
      exact ih h
    · cases hp : parse_game_row r season with
      | some g =>
        simp only [rowsLoop, if_neg hmem, hp]
        exact ih (fetchInv_insert h (parse_game_row_game_id hp) hmem)
      | none =>
        simp only [rowsLoop, if_neg hmem, hp]
        exact ih (fetchInv_grow_seen h)

theorem mergeLoop_inv (stype : String) (gs : List Game)
    {st : List String × List Game} (h : FetchInv st) :
    FetchInv (mergeLoop stype gs st) := by
  induction gs generalizing st with
  | nil => simpa [mergeLoop] using h
  | cons g rest ih =>
    obtain ⟨seen, acc⟩ := st
    by_cases hmem : g.game_id ∈ seen
    · simp only [mergeLoop, if_pos hmem]
      exact ih h
    · simp only [mergeLoop, if_neg hmem]
      exact ih (fetchInv_insert h rfl hmem)

theorem foldl_rowsLoop_inv (season stype : String)
    (fetchTeam : Nat → String → List RawRow) (ids : List Nat)
    {st : List String × List Game} (h : FetchInv st) :
    FetchInv (ids.foldl (fun st tid => rowsLoop season (fetchTeam tid stype) st) st) := by
  induction ids generalizing st with
  | nil => simpa using h
  | cons tid rest ih => exact ih (rowsLoop_inv season _ h)

theorem fetchInv_nil : FetchInv ([], []) :=
  ⟨by simp, fun id => by simp⟩

theorem sortByDate_perm (l : List Game) : (sortByDate l).Perm l :=
  List.perm_insertionSort dateLe l

theorem sortByDate_sorted (l : List Game) : List.Sorted dateLe (sortByDate l) :=
  List.sorted_insertionSort dateLe l

theorem get_season_games_countP (fetchTeam : Nat → String → List RawRow)
    (fetchBulk : String → List RawRow) (season : String)
    (team_ids : Option (List Nat)) (season_type : String) (id : String) :
    List.countP (gameIdIs id)
      (get_season_games fetchTeam fetchBulk season team_ids season_type) ≤ 1 := by
  unfold get_season_games
  rw [(sortByDate_perm _).countP_eq]
  by_cases hc : teamIdsTruthy team_ids
  · simp only [hc, if_true]
    exact (foldl_rowsLoop_inv season season_type fetchTeam _ fetchInv_nil).2 id
  · simp only [hc, if_false, Bool.false_eq_true]
    exact (rowsLoop_inv season _ fetchInv_nil).2 id

theorem foldl_mergeLoop_inv (gs : String → List Game) (stypes : List String)
    {st : List String × List Game} (h : FetchInv st) :
    FetchInv (stypes.foldl (fun st stype => mergeLoop stype (gs stype) st) st) := by
  induction stypes generalizing st with
  | nil => simpa using h
  | cons stype rest ih => exact ih (mergeLoop_inv stype _ h)

theorem get_full_season_schedule_countP (fetchTeam : Nat → String → List RawRow)
    (fetchBulk : String → List RawRow) (season : String)
    (team_ids : Option (List Nat)) (ipre iplay : Bool) (id : String) :
    List.countP (gameIdIs id)
      (get_full_season_schedule fetchTeam fetchBulk season team_ids ipre iplay) ≤ 1 := by
  unfold get_full_season_schedule
  rw [(sortByDate_perm _).countP_eq]
  exact (foldl_mergeLoop_inv
    (fun stype => get_season_games fetchTeam fetchBulk season team_ids stype)
    (seasonTypesList ipre iplay) fetchInv_nil).2 id

/-- C6: for every upstream source and every fetch (per-team or bulk,
single season type or full schedule), the returned list contains each
gameId at most once and is sorted ascending by gameDate; concretely, the
game shared by the two filtered teams BOS and NYK appears exactly once in
the merged per-team result. -/
theorem C6_dedup_sorted (fetchTeam : Nat → String → List RawRow)
    (fetchBulk : String → List RawRow) (season : String)
    (team_ids : Option (List Nat)) (season_type : String) (ipre iplay : Bool) :
    (∀ id, List.countP (gameIdIs id)
        (get_season_games fetchTeam fetchBulk season team_ids season_type) ≤ 1)
      ∧ List.Sorted dateLe (get_season_games fetchTeam fetchBulk season team_ids season_type)
      ∧ (∀ id, List.countP (gameIdIs id)
          (get_full_season_schedule fetchTeam fetchBulk season team_ids ipre iplay) ≤ 1)
      ∧ List.Sorted dateLe (get_full_season_schedule fetchTeam fetchBulk season team_ids ipre iplay)
      ∧ List.countP (gameIdIs "0022400001")
          (get_season_games fetchShared (fun _ => []) "2024-25"
            (some [1610612738, 1610612752]) "Regular Season") = 1 := by
  refine ⟨fun id => get_season_games_countP _ _ _ _ _ id, ?_,
    fun id => get_full_season_schedule_countP _ _ _ _ _ _ id, ?_, by decide⟩
  · unfold get_season_games
    exact sortByDate_sorted _
  · unfold get_full_season_schedule
    exact sortByDate_sorted _

theorem filterDedup_ids_nodup (p : Game → Bool) (gs : List Game) (seen : List String) :
    ((filterDedup p gs seen).map (fun g => g.game_id)).Nodup
      ∧ ∀ id ∈ (filterDedup p gs seen).map (fun g => g.game_id),
          id ∉ seen ∧ id ∈ gs.map (fun g => g.game_id) := by
  induction gs generalizing seen with
  | nil => simp [filterDedup]
  | cons g rest ih =>
    by_cases hmem : g.game_id ∈ seen
    · simp only [filterDedup, if_pos hmem]
      refine ⟨(ih seen).1, fun id hid => ?_⟩
      obtain ⟨h1, h2⟩ := (ih seen).2 id hid
      exact ⟨h1, by simp only [List.map_cons, List.mem_cons]; exact Or.inr h2⟩
    · by_cases hp : p g
      · simp only [filterDedup, if_neg hmem, if_pos hp, List.map_cons]
        have iha := ih (g.game_id :: seen)
        constructor
        · rw [List.nodup_cons]
          exact ⟨fun hin => (iha.2 _ hin).1 (List.mem_cons_self _ _), iha.1⟩
        · intro id hid
          rcases List.mem_cons.1 hid with rfl | hid
          · exact ⟨hmem, List.mem_cons_self _ _⟩
          · obtain ⟨h1, h2⟩ := iha.2 id hid
            exact ⟨fun hs => h1 (List.mem_cons_of_mem _ hs), List.mem_cons_of_mem _ h2⟩
      · simp only [filterDedup, if_neg hmem, if_neg hp]
        refine ⟨(ih seen).1, fun id hid => ?_⟩
        obtain ⟨h1, h2⟩ := (ih seen).2 id hid
        exact ⟨h1, by simp only [List.map_cons, List.mem_cons]; exact Or.inr h2⟩

theorem filterDedup_length_le (p : Game → Bool) (gs : List Game) :
    (filterDedup p gs []).length ≤ ((gs.map (fun g => g.game_id)).toFinset).card := by
  have h := filterDedup_ids_nodup p gs []
  have hlen : (filterDedup p gs []).length
      = ((filterDedup p gs []).map (fun g => g.game_id)).length := by
    rw [List.length_map]
  rw [hlen, ← List.toFinset_card_of_nodup h.1]
  apply Finset.card_le_card
  intro id hid
  rw [List.mem_toFinset]
  exact (h.2 id (List.mem_toFinset.1 hid)).2

theorem filterDedup_true_ids_toFinset (gs : List Game) (seen : List String) :
    ((filterDedup (fun _ => true) gs seen).map (fun g => g.game_id)).toFinset
      = (gs.map (fun g => g.game_id)).toFinset \ seen.toFinset := by
  induction gs generalizing seen with
  | nil => simp [filterDedup]
  | cons g rest ih =>
    by_cases hmem : g.game_id ∈ seen
    · simp only [filterDedup, if_pos hmem, List.map_cons, List.toFinset_cons]
      rw [ih seen, Finset.insert_sdiff_of_mem _ (List.mem_toFinset.2 hmem)]
    · simp only [filterDedup, if_neg hmem, if_pos trivial, List.map_cons, List.toFinset_cons]
      rw [ih (g.game_id :: seen)]
      ext x
      by_cases hx : x = g.game_id <;>
        simp [hx, Finset.mem_sdiff, List.mem_toFinset, hmem]

theorem combinedEvents_length (now : DateTime) (games : List Game) (m : Int) :
    (combinedEvents now games m).length
      = ((games.map (fun g => g.game_id)).toFinset).card := by
  unfold combinedEvents
  rw [List.length_map]
  have h1 := (filterDedup_ids_nodup (fun _ => true) games []).1
  have : (filterDedup (fun _ => true) games []).length
      = ((filterDedup (fun _ => true) games []).map (fun g => g.game_id)).length := by
    rw [List.length_map]
  rw [this, ← List.toFinset_card_of_nodup h1, filterDedup_true_ids_toFinset]
  simp

theorem filterDedup_countP (p : Game → Bool) (gs : List Game)
    (seen : List String) (id : String) :
    (id ∈ seen → List.countP (gameIdIs id) (filterDedup p gs seen) = 0)
      ∧ List.countP (gameIdIs id) (filterDedup p gs seen) ≤ 1 := by
  induction gs generalizing seen with
  | nil => simp [filterDedup]
  | cons g rest ih =>
    by_cases hmem : g.game_id ∈ seen
    · simp only [filterDedup, if_pos hmem]
      exact ih seen
    · by_cases hp : p g
      · simp only [filterDedup, if_neg hmem, if_pos hp, List.countP_cons]
        by_cases hgid : gameIdIs id g
        · have hid : id = g.game_id :=
            (by simpa [gameIdIs] using hgid : g.game_id = id).symm
          have hz : List.countP (gameIdIs id) (filterDedup p rest (g.game_id :: seen)) = 0 :=
            (ih (g.game_id :: seen)).1 (by rw [hid]; exact List.mem_cons_self _ _)
          refine ⟨fun hs => absurd (hid ▸ hs) hmem, ?_⟩
          simp [hz, hgid]
        · refine ⟨fun hs => ?_, ?_⟩
          · have hz := (ih (g.game_id :: seen)).1 (List.mem_cons_of_mem _ hs)
            simp [hz, hgid]
          · have hle := (ih (g.game_id :: seen)).2
            simpa [hgid] using hle
      · simp only [filterDedup, if_neg hmem, if_neg hp]
        exact ih seen

theorem filterDedup_true_countP (gs : List Game) (seen : List String) (id : String) :
    List.countP (gameIdIs id) (filterDedup (fun _ => true) gs seen)
      = if id ∈ seen then 0
        else if id ∈ gs.map (fun g => g.game_id) then 1 else 0 := by
  induction gs generalizing seen with
  | nil => simp [filterDedup]
  | cons g rest ih =>
    by_cases hmem : g.game_id ∈ seen
    · simp only [filterDedup, if_pos hmem]
      rw [ih seen]
      by_cases hs : id ∈ seen
      · simp [hs]
      · have hne : id ≠ g.game_id := fun h => hs (h ▸ hmem)
        simp [hs, List.mem_cons, hne]
    · simp only [filterDedup, if_neg hmem, if_pos trivial, List.countP_cons]
      rw [ih (g.game_id :: seen)]
      by_cases hgid : id = g.game_id
      · subst hgid
        simp [hmem, gameIdIs, List.mem_cons]
      · have : gameIdIs id g = false := by
          simp [gameIdIs]
          exact fun h => hgid h.symm
        simp only [this, if_false, List.mem_cons, hgid, false_or]
        by_cases hs : id ∈ seen <;> simp [hs, hgid]

/-- C3: the combined calendar has exactly one event per distinct gameId of
the input (its event count equals the distinct-gameId count, and each input
id is kept exactly once), and the conference and division calendars never
have more events than distinct gameIds, with each id kept at most once by
the filtering loop even when both teams of a game match the filter. -/
theorem C3_event_counts (now : DateTime) (games : List Game)
    (conference division : String) (cn : Option String) (m : Int) :
    (combinedEvents now games m).length
        = ((games.map (fun g => g.game_id)).toFinset).card
      ∧ (∀ id, List.countP (gameIdIs id) (filterDedup (fun _ => true) games [])
          = if id ∈ games.map (fun g => g.game_id) then 1 else 0)
      ∧ (generate_conference_calendar now games conference cn m).events.length
          ≤ ((games.map (fun g => g.game_id)).toFinset).card
      ∧ (generate_division_calendar now games division cn m).events.length
          ≤ ((games.map (fun g => g.game_id)).toFinset).card
      ∧ (∀ p id, List.countP (gameIdIs id) (filterDedup p games []) ≤ 1) := by
  refine ⟨combinedEvents_length now games m, fun id => ?_, ?_, ?_, fun p id =>
    (filterDedup_countP p games [] id).2⟩
  · rw [filterDedup_true_countP]
    simp
  · simp only [generate_conference_calendar, List.length_map]
    exact filterDedup_length_le _ _
  · simp only [generate_division_calendar, List.length_map]
    exact filterDedup_length_le _ _

theorem parse_game_row_sides {r : RawRow} {s : String} {g : Game}
    (h : parse_game_row r s = some g) :
    matchupSides r.matchup = some (g.away_team, g.home_team) := by
  unfold parse_game_row at h
  repeat' split at h
  all_goals (try exact Option.noConfusion h)
  all_goals (injection h with h; subst h)
  all_goals assumption

theorem rowsLoop_mem (season : String) (rows : List RawRow)
    {st : List String × List Game} {g : Game}
    (h : g ∈ (rowsLoop season rows st).2) :
    g ∈ st.2 ∨ ∃ r ∈ rows, parse_game_row r season = some g := by
  induction rows generalizing st with
  | nil => exact Or.inl (by simpa [rowsLoop] using h)
  | cons r rs ih =>
    obtain ⟨seen, games⟩ := st
    by_cases hmem : r.game_id ∈ seen
    · rw [show rowsLoop season (r :: rs) (seen, games)
          = rowsLoop season rs (seen, games) by simp [rowsLoop, hmem]] at h
      rcases ih h with h | ⟨r', hr', hp⟩
      · exact Or.inl h
      · exact Or.inr ⟨r', List.mem_cons_of_mem _ hr', hp⟩
    · cases hp : parse_game_row r season with
      | some g0 =>
        rw [show rowsLoop season (r :: rs) (seen, games)
            = rowsLoop season rs (r.game_id :: seen, games ++ [g0])
            by simp [rowsLoop, hmem, hp]] at h
        rcases ih h with h | ⟨r', hr', hp'⟩
        · rcases List.mem_append.1 h with h | h
          · exact Or.inl h
          · rcases List.mem_singleton.1 h with rfl
            exact Or.inr ⟨r, List.mem_cons_self _ _, hp⟩
        · exact Or.inr ⟨r', List.mem_cons_of_mem _ hr', hp'⟩
      | none =>
        rw [show rowsLoop season (r :: rs) (seen, games)
            = rowsLoop season rs (r.game_id :: seen, games)
            by simp [rowsLoop, hmem, hp]] at h
        rcases ih h with h | ⟨r', hr', hp'⟩
        · exact Or.inl h
        · exact Or.inr ⟨r', List.mem_cons_of_mem _ hr', hp'⟩

theorem foldl_rowsLoop_mem (season stype : String)
    (fetchTeam : Nat → String → List RawRow) (ids : List Nat)
    {st : List String × List Game} {g : Game}
    (h : g ∈ (ids.foldl (fun st tid => rowsLoop season (fetchTeam tid stype) st) st).2) :
    g ∈ st.2 ∨ ∃ tid ∈ ids, ∃ r ∈ fetchTeam tid stype, parse_game_row r season = some g := by
  induction ids generalizing st with
  | nil => exact Or.inl (by simpa using h)
  | cons tid rest ih =>
    rcases ih (by simpa using h) with h' | ⟨tid', htid', r, hr, hp⟩
    · rcases rowsLoop_mem season _ h' with h'' | ⟨r, hr, hp⟩
      · exact Or.inl h''
      · exact Or.inr ⟨tid, List.mem_cons_self _ _, r, hr, hp⟩
    · exact Or.inr ⟨tid', List.mem_cons_of_mem _ htid', r, hr, hp⟩

theorem get_season_games_mem (fetchTeam : Nat → String → List RawRow)
    (fetchBulk : String → List RawRow) (season : String)
    (team_ids : Option (List Nat)) (season_type : String) {g : Game}
    (h : g ∈ get_season_games fetchTeam fetchBulk season team_ids season_type) :
    ∃ r, (r ∈ fetchBulk season_type
        ∨ ∃ tid ∈ team_ids.getD [], r ∈ fetchTeam tid season_type)
      ∧ parse_game_row r season = some g := by
  unfold get_season_games at h
  rw [(sortByDate_perm _).mem_iff] at h
  by_cases hc : teamIdsTruthy team_ids
  · simp only [hc, if_true] at h
    rcases foldl_rowsLoop_mem season season_type fetchTeam _ h with h' | ⟨tid, htid, r, hr, hp⟩
    · simp at h'
    · exact ⟨r, Or.inr ⟨tid, htid, hr⟩, hp⟩
  · simp only [hc, if_false, Bool.false_eq_true] at h
    rcases rowsLoop_mem season _ h with h' | ⟨r, hr, hp⟩
    · simp at h'
    · exact ⟨r, Or.inl hr, hp⟩

/-- C5: matchup text "BOS @ NYK" parses to away=BOS, home=NYK; "BOS vs. NYK"
parses to home=BOS, away=NYK; a record whose matchup contains neither
separator token is dropped (parse yields `none`), as is one whose side is
unknown to the team directory; and every game in the fetch output comes
from a successfully parsed record, so dropped records never appear. -/
theorem C5_matchup_parsing :
    (∀ (r : RawRow) (s : String) (g : Game), r.matchup = "BOS @ NYK" →
        parse_game_row r s = some g → g.away_team = "BOS" ∧ g.home_team = "NYK")
      ∧ (∀ (r : RawRow) (s : String) (g : Game), r.matchup = "BOS vs. NYK" →
          parse_game_row r s = some g → g.home_team = "BOS" ∧ g.away_team = "NYK")
      ∧ (∀ (r : RawRow) (s : String), hasSubstr r.matchup " vs. " = false →
          hasSubstr r.matchup " @ " = false → parse_game_row r s = none)
      ∧ (∀ (r : RawRow) (s a hm : String), matchupSides r.matchup = some (a, hm) →
          get_team_by_abbrev hm = none ∨ get_team_by_abbrev a = none →
          parse_game_row r s = none)
      ∧ (∀ (fetchTeam : Nat → String → List RawRow) (fetchBulk : String → List RawRow)
          (season : String) (team_ids : Option (List Nat)) (season_type : String)
          (g : Game), g ∈ get_season_games fetchTeam fetchBulk season team_ids season_type →
          ∃ r, (r ∈ fetchBulk season_type
              ∨ ∃ tid ∈ team_ids.getD [], r ∈ fetchTeam tid season_type)
            ∧ parse_game_row r season = some g) := by
  refine ⟨?_, ?_, ?_, ?_, fun ft fb se ti sty g h => get_season_games_mem ft fb se ti sty h⟩
  · intro r s g hm hp
    have hside := parse_game_row_sides hp
    rw [hm] at hside
    have : matchupSides "BOS @ NYK" = some ("BOS", "NYK") := by decide
    rw [this] at hside
    injection hside with hside
    exact ⟨congrArg Prod.fst hside.symm, congrArg Prod.snd hside.symm⟩
  · intro r s g hm hp
    have hside := parse_game_row_sides hp
    rw [hm] at hside
    have : matchupSides "BOS vs. NYK" = some ("NYK", "BOS") := by decide
    rw [this] at hside
    injection hside with hside
    exact ⟨congrArg Prod.snd hside.symm, congrArg Prod.fst hside.symm⟩
  · intro r s h1 h2
    unfold parse_game_row matchupSides
    rw [h1, h2]
    rfl
  · intro r s a hm hside hnone
    rcases hnone with hnone | hnone
    · simp [parse_game_row, hside, hnone]
    · cases hh : get_team_by_abbrev hm <;>
        simp [parse_game_row, hside, hnone, hh]

/-- C5 witness: the parsing facts applied at concrete rows — the away-form
and home-form rows of the BOS/NYK game, a row with separator "at", and a
row naming the unknown abbreviation XYZ. -/
theorem C5_matchup_parsing_witness :
    (gameBOSAway.away_team = "BOS" ∧ gameBOSAway.home_team = "NYK")
      ∧ (gameBOSHome.home_team = "BOS" ∧ gameBOSHome.away_team = "NYK")
      ∧ parse_game_row rowBadSep "2024-25" = none
      ∧ parse_game_row rowUnkTeam "2024-25" = none :=
  ⟨C5_matchup_parsing.1 rowBOSAway "2024-25" gameBOSAway rfl (by decide),
   C5_matchup_parsing.2.1 rowBOSHome "2024-25" gameBOSHome rfl (by decide),
   C5_matchup_parsing.2.2.1 rowBadSep "2024-25" (by decide) (by decide),
   C5_matchup_parsing.2.2.2.1 rowUnkTeam "2024-25" "XYZ" "BOS" (by decide)
     (Or.inr (by decide))⟩

theorem mergeLoop_mem (stype : String) (gs : List Game)
    {st : List String × List Game} {g : Game}
    (h : g ∈ (mergeLoop stype gs st).2) :
    g ∈ st.2 ∨ ∃ g₀ ∈ gs, g = setSeasonType g₀ stype := by
  induction gs generalizing st with
  | nil => exact Or.inl (by simpa [mergeLoop] using h)
  | cons g0 rest ih =>
    obtain ⟨seen, acc⟩ := st
    by_cases hmem : g0.game_id ∈ seen
    · rw [show mergeLoop stype (g0 :: rest) (seen, acc)
          = mergeLoop stype rest (seen, acc) by simp [mergeLoop, hmem]] at h
      rcases ih h with h | ⟨g₀, hg₀, rfl⟩
      · exact Or.inl h
      · exact Or.inr ⟨g₀, List.mem_cons_of_mem _ hg₀, rfl⟩
    · rw [show mergeLoop stype (g0 :: rest) (seen, acc)
          = mergeLoop stype rest (g0.game_id :: seen, acc ++ [setSeasonType g0 stype])
          by simp [mergeLoop, hmem]] at h
      rcases ih h with h | ⟨g₀, hg₀, rfl⟩
      · rcases List.mem_append.1 h with h | h
        · exact Or.inl h
        · rcases List.mem_singleton.1 h with rfl
          exact Or.inr ⟨g0, List.mem_cons_self _ _, rfl⟩
      · exact Or.inr ⟨g₀, List.mem_cons_of_mem _ hg₀, rfl⟩

theorem foldl_mergeLoop_mem (gs : String → List Game) (stypes : List String)
    {st : List String × List Game} {g : Game}
    (h : g ∈ (stypes.foldl (fun st stype => mergeLoop stype (gs stype) st) st).2) :
    g ∈ st.2 ∨ ∃ stype ∈ stypes, ∃ g₀ ∈ gs stype, g = setSeasonType g₀ stype := by
  induction stypes generalizing st with
  | nil => exact Or.inl (by simpa using h)
  | cons stype rest ih =>
    rcases ih (by simpa using h) with h' | ⟨sty, hsty, g₀, hg₀, rfl⟩
    · rcases mergeLoop_mem stype _ h' with h'' | ⟨g₀, hg₀, rfl⟩
      · exact Or.inl h''
      · exact Or.inr ⟨stype, List.mem_cons_self _ _, g₀, hg₀, rfl⟩
    · exact Or.inr ⟨sty, List.mem_cons_of_mem _ hsty, g₀, hg₀, rfl⟩

/-- C2 (amended): every `Game` handed to the Synthesizer by
`get_full_season_schedule` keeps every field of the constructed game it came
from except `season_type`, which the merge loop overwrites with the season
type of the sub-query that first produced the game. -/
theorem C2_season_type_rewrite (fetchTeam : Nat → String → List RawRow)
    (fetchBulk : String → List RawRow) (season : String)
    (team_ids : Option (List Nat)) (ipre iplay : Bool) (g : Game)
    (h : g ∈ get_full_season_schedule fetchTeam fetchBulk season team_ids ipre iplay) :
    ∃ stype g₀, stype ∈ seasonTypesList ipre iplay
      ∧ g₀ ∈ get_season_games fetchTeam fetchBulk season team_ids stype
      ∧ g = setSeasonType g₀ stype
      ∧ g.game_id = g₀.game_id ∧ g.game_date = g₀.game_date
      ∧ g.home_team = g₀.home_team ∧ g.away_team = g₀.away_team
      ∧ g.home_score = g₀.home_score ∧ g.away_score = g₀.away_score
      ∧ g.completed = g₀.completed ∧ g.season = g₀.season
      ∧ g.season_type = stype := by
  unfold get_full_season_schedule at h
  rw [(sortByDate_perm _).mem_iff] at h
  rcases foldl_mergeLoop_mem _ _ h with h' | ⟨stype, hsty, g₀, hg₀, rfl⟩
  · simp at h'
  · exact ⟨stype, g₀, hsty, hg₀, rfl, rfl, rfl, rfl, rfl, rfl, rfl, rfl, rfl, rfl⟩

/-- C2 counterexample: a record with no season-type column parses into a
`Game` constructed with `season_type = "Regular Season"`, but when the
playoff sub-query of `get_full_season_schedule` returns it, the pipeline
mutates the already-constructed game and hands it on with
`season_type = "Playoffs"` — so a fetched `Game` does not keep the value
assigned at construction. -/
theorem C2_counterexample :
    (parse_game_row rowUpcoming "2024-25").map (fun g => (g.game_id, g.season_type))
        = some ("0022400001", "Regular Season")
      ∧ (get_full_season_schedule (fun _ _ => []) fetchPlayoffsOnly "2024-25"
          none false true).map (fun g => (g.game_id, g.season_type))
        = [("0022400001", "Playoffs")] := by
  decide

/-- C2 witness: the amended theorem applied to the concrete playoff-only
source, whose single output game is the constructed game with only its
season type rewritten. -/
theorem C2_season_type_rewrite_witness :
    ∃ stype g₀, stype ∈ seasonTypesList false true
      ∧ g₀ ∈ get_season_games (fun _ _ => []) fetchPlayoffsOnly "2024-25" none stype
      ∧ setSeasonType gameUpcoming "Playoffs" = setSeasonType g₀ stype
      ∧ (setSeasonType gameUpcoming "Playoffs").game_id = g₀.game_id
      ∧ (setSeasonType gameUpcoming "Playoffs").game_date = g₀.game_date
      ∧ (setSeasonType gameUpcoming "Playoffs").home_team = g₀.home_team
      ∧ (setSeasonType gameUpcoming "Playoffs").away_team = g₀.away_team
      ∧ (setSeasonType gameUpcoming "Playoffs").home_score = g₀.home_score
      ∧ (setSeasonType gameUpcoming "Playoffs").away_score = g₀.away_score
      ∧ (setSeasonType gameUpcoming "Playoffs").completed = g₀.completed
      ∧ (setSeasonType gameUpcoming "Playoffs").season = g₀.season
      ∧ (setSeasonType gameUpcoming "Playoffs").season_type = stype :=
  C2_season_type_rewrite (fun _ _ => []) fetchPlayoffsOnly "2024-25" none false true
    (setSeasonType gameUpcoming "Playoffs") (by decide)

theorem generate_team_calendar_error (now : DateTime) (games : List Game)
    (ab : String) (cn : Option String) (m : Int)
    (h : get_team_by_abbrev ab = none) :
    generate_team_calendar now games ab cn m = Except.error ("Unknown team: " ++ ab) := by
  simp [generate_team_calendar, h]

theorem generate_team_calendar_ok (now : DateTime) (games : List Game)
    (ab : String) (cn : Option String) (m : Int) (ti : TeamInfo)
    (h : get_team_by_abbrev ab = some ti) :
    generate_team_calendar now games ab cn m = Except.ok
      { prodid := "-//NBA CLI//nba-cli//EN", version := "2.0",
        calscale := "GREGORIAN", method := "PUBLISH",
        calname := calNameOr cn ("NBA - " ++ ti.name),
        timezone := "America/New_York",
        events := (games.filter (fun g => g.involves_team ab)).map
          (fun g => create_game_event now g m) } := by
  simp [generate_team_calendar, h]

theorem teams_fold_paths (now : DateTime) (dir : String) (games : List Game)
    (m : Int) (teams : List String) (acc : List String) :
    teams.foldl
      (fun acc ab =>
        match generate_team_calendar now games ab none m with
        | Except.ok _ => acc ++ [dir ++ "/nba_" ++ strLower ab ++ ".ics"]
        | Except.error _ => acc)
      acc
    = acc ++ (teams.filter (fun ab => (get_team_by_abbrev ab).isSome)).map
        (fun ab => dir ++ "/nba_" ++ strLower ab ++ ".ics") := by
  induction teams generalizing acc with
  | nil => simp
  | cons ab rest ih =>
    simp only [List.foldl_cons, List.filter_cons]
    cases hab : get_team_by_abbrev ab with
    | none =>
      rw [generate_team_calendar_error now games ab none m hab]
      simp only [hab, Option.isSome_none, Bool.false_eq_true, if_false]
      exact ih acc
    | some ti =>
      rw [generate_team_calendar_ok now games ab none m ti hab]
      simp only [hab, Option.isSome_some, if_true, List.map_cons]
      rw [ih (acc ++ [dir ++ "/nba_" ++ strLower ab ++ ".ics"])]
      simp

theorem foldl_append_map {α : Type} (f : α → String) (l : List α)
    (acc : List String) :
    l.foldl (fun acc x => acc ++ [f x]) acc = acc ++ l.map f := by
  induction l generalizing acc with
  | nil => simp
  | cons x rest ih =>
    simp only [List.foldl_cons, List.map_cons]
    rw [ih]
    simp

/-- C7 (amended): the export batch returns exactly one path per tracked
team whose abbreviation resolves in the directory (an unresolvable team is
skipped and the batch continues), one path per tracked conference and per
tracked division unconditionally (an unresolvable conference or division is
NOT skipped: an empty calendar is built and its path returned), plus the
combined-calendar path when anything is tracked; no entity aborts the
batch. -/
theorem C7_export_batch (now : DateTime) (dir : String) (games : List Game)
    (teams confs divs : List String) (m : Int) :
    generate_all now dir games teams confs divs m
      = (teams.filter (fun ab => (get_team_by_abbrev ab).isSome)).map
          (fun ab => dir ++ "/nba_" ++ strLower ab ++ ".ics")
        ++ confs.map (fun conf => dir ++ "/nba_" ++ strLower conf ++ ".ics")
        ++ divs.map (fun div => dir ++ "/nba_" ++ strLower div ++ ".ics")
        ++ (if !teams.isEmpty || !confs.isEmpty || !divs.isEmpty then
              [dir ++ "/nba_schedule.ics"]
            else []) := by
  unfold generate_all
  dsimp only
  rw [teams_fold_paths]
  rw [foldl_append_map (fun conf => dir ++ "/nba_" ++ strLower conf ++ ".ics") confs]
  rw [foldl_append_map (fun div => dir ++ "/nba_" ++ strLower div ++ ".ics") divs]
  by_cases hc : (!teams.isEmpty || !confs.isEmpty || !divs.isEmpty) = true
  · simp only [hc, if_true]
    simp [List.append_assoc]
  · simp only [hc, Bool.not_eq_true] at hc ⊢
    simp only [hc, Bool.false_eq_true, if_false]
    simp [List.append_assoc]

/-- C7 counterexample: "Atlantis" resolves to no conference in the team
directory, yet its calendar is not skipped — `generate_all` returns an
output location for it, contradicting the claim that no output location
appears for an unresolvable entity. -/
theorem C7_counterexample :
    get_teams_by_conference "Atlantis" = []
      ∧ ("o/nba_atlantis.ics") ∈ generate_all now0 "o" [] [] ["Atlantis"] [] 60 := by
  decide
